import Mathlib

/-
Verification development for the conversational routing core of the opn_rag
repository (src/app/api/chat.py, src/app/services/conversation_service.py,
src/app/services/query_validator_service.py,
src/app/services/agent_inquiry_service.py, src/app/services/llm_service.py).

Modelling conventions (shallow embedding):
* The mutable per-session Python objects become explicit state passing: a
  turn takes a session store and returns the response together with the
  final value of the session object and the final store.
* Every LLM call (grok_call) together with the source's post-processing of
  the raw text (markdown-fence stripping, think-block stripping, JSON
  parsing) is abstracted as an external outcome supplied by an Oracle value:
  for call sites that parse structured JSON output the outcome is either
  raise (the underlying API call raised), unparsable (the returned
  text failed to parse / lacked required fields), or the parsed value;
  for call sites that use the text directly the outcome is an
  Option String, none meaning the underlying call raised.
  The handling of each outcome (fallbacks, exception propagation) is
  translated from the source; the text content itself is uninterpreted.
* The MySQL agent catalog is abstracted as a pure list of agent entries
  (name, id, subagents); catalog DB failures are not modelled.
* Exceptions that the source does not catch are modelled with Except:
  a turn evaluates to Except.error () when the Python handler would let an
  exception escape to the HTTP layer.
-/

/-- One entry of a conversation history, mirroring the
`{"role": ..., "content": ...}` dicts of ConversationSession.messages. -/
structure Message where
  role : String
  content : String
deriving DecidableEq

/-- ConversationSession from src/app/services/conversation_service.py,
field for field (types refined: Python None becomes Option). -/
structure ConversationSession where
  session_id : String
  messages : List Message
  clarifications_asked : Nat
  final_agent_id : Option Nat
  final_subagent_id : Option Nat
  is_finalized : Bool
  awaiting_confirmation : Bool
  pending_routing_agent : Option String
  pending_routing_subagent : Option String
  client_name : Option String
  wave_number : Option String
deriving DecidableEq

/-- ConversationSession.__init__. -/
def newSession (session_id : String) : ConversationSession :=
  { session_id := session_id
    messages := []
    clarifications_asked := 0
    final_agent_id := none
    final_subagent_id := none
    is_finalized := false
    awaiting_confirmation := false
    pending_routing_agent := none
    pending_routing_subagent := none
    client_name := none
    wave_number := none }

/-- ConversationSession.add_message. -/
def ConversationSession.add_message (s : ConversationSession) (role content : String) :
    ConversationSession :=
  { s with messages := s.messages ++ [{ role := role, content := content }] }

/-- ConversationSession.finalize. -/
def ConversationSession.finalize (s : ConversationSession) (agent_id : Nat)
    (subagent_id : Option Nat) : ConversationSession :=
  { s with final_agent_id := some agent_id
           final_subagent_id := subagent_id
           is_finalized := true }

/-- The in-memory `_conversations` dict, modelled as a partial map. -/
def Store : Type := String → Option ConversationSession

/-- Dictionary read. -/
def storeGet (st : Store) (k : String) : Option ConversationSession := st k

/-- Dictionary write (assignment `_conversations[id] = session`). -/
def storeSet (st : Store) (k : String) (s : ConversationSession) : Store :=
  fun k2 => if k2 = k then some s else st k2

/-- Dictionary delete (`del _conversations[id]`, guarded by membership). -/
def storeErase (st : Store) (k : String) : Store :=
  fun k2 => if k2 = k then none else st k2

/-- The empty store. -/
def emptyStore : Store := fun _ => none

/-- get_or_create_session: returns the session and the (possibly extended)
store; a fresh session is inserted into the store on first use. -/
def get_or_create_session (st : Store) (session_id : String) :
    ConversationSession × Store :=
  match storeGet st session_id with
  | some s => (s, st)
  | none => (newSession session_id, storeSet st session_id (newSession session_id))

/-- delete_session: idempotent removal. -/
def delete_session (st : Store) (session_id : String) : Store :=
  storeErase st session_id

/-- Python truthiness of an optional string (None and "" are falsy). -/
def truthyStr : Option String → Bool
  | none => false
  | some s => !(s == "")

/-- How Python renders an optional string inside an f-string
(None prints as "None"). -/
def pyStr : Option String → String
  | none => "None"
  | some s => s

/-- Python `a or b` on optional strings. -/
def pyOr (a b : Option String) : Option String :=
  if truthyStr a then a else b

/-- Python str.lower, as a character map (the queries and responses the
core compares are ASCII). -/
def pyLower (s : String) : String :=
  String.mk (s.data.map Char.toLower)

/-- Python str.strip: drop whitespace from both ends. -/
def pyStrip (s : String) : String :=
  String.mk (((s.data.dropWhile Char.isWhitespace).reverse.dropWhile
    Char.isWhitespace).reverse)

/-- Python str.startswith. -/
def strStartsWith (s w : String) : Bool :=
  decide (s.data.take w.data.length = w.data)

/-- Helper for the substring test: does w occur at some position of l. -/
def containsSubAux (w : List Char) : List Char → Bool
  | [] => decide (w = [])
  | c :: rest => decide ((c :: rest).take w.length = w) || containsSubAux w rest

/-- Python `w in s` substring test. -/
def containsSub (s w : String) : Bool :=
  containsSubAux w.data s.data

/-- `list(dict.fromkeys(xs))`: deduplication keeping first occurrences. -/
def dedupFirst (l : List (Option String)) : List (Option String) :=
  l.foldl (fun acc x => if x ∈ acc then acc else acc ++ [x]) []

/-- Result record of validate_query
(src/app/services/query_validator_service.py). -/
structure ValidationResult where
  is_valid : Bool
  confidence : ℚ
  reason : String
  suggested_action : String
deriving DecidableEq

/-- A matched candidate inside a routing decision
(entries of matched_candidates; keys read with .get, hence Option). -/
structure Candidate where
  agent : Option String
  subagent : Option String
  reasoning : Option String
deriving DecidableEq

/-- The JSON object produced by the Mode-1 routing evaluation, with every
key read through .get in the source, hence optional fields. -/
structure RoutingDecision where
  route : Bool
  agent : Option String
  subagent : Option String
  client_name : Option String
  wave_number : Option String
  confidence : ℚ
  matched_candidates : List Candidate
  reasoning : Option String
deriving DecidableEq

/-- The JSON object produced by the confirmation generator
(ask_routing_confirmation's parsed LLM output). -/
structure ConfirmationGen where
  confirmation_message : String
  summary : String
  agent_description : String
deriving DecidableEq

/-- The JSON object produced by route_agent's LLM call (direct mode). -/
structure RouteParsed where
  agent : Option String
  subagent : Option String
deriving DecidableEq

/-- Outcome of one external structured-output LLM call:
the underlying API call raised, or the text failed to parse as the
expected JSON object, or it parsed to a value. -/
inductive CallOutcome (α : Type) where
  | raise : CallOutcome α
  | unparsable : CallOutcome α
  | parsed : α → CallOutcome α
deriving DecidableEq

/-- One catalog subagent row (models/subagent.py, fields used by the core). -/
structure SubAgentEntry where
  id : Nat
  name : String
deriving DecidableEq

/-- One catalog agent row with its subagents
(models/agent.py joined as in finalize_routing). -/
structure AgentEntry where
  id : Nat
  name : String
  subagents : List SubAgentEntry
deriving DecidableEq

/-- The outcomes of all external calls a single turn can make.  Each
capability is invoked at most once per turn in the source, so one outcome
per capability suffices. -/
structure Oracle where
  validateOutcome : CallOutcome ValidationResult
  inquiryResp : Option String
  answerInquiryResp : Option String
  evalRoutingOutcome : CallOutcome RoutingDecision
  affirmResp : Option String
  confirmGenOutcome : CallOutcome ConfirmationGen
  clarifyResp : Option String
  routeMsgResp : Option String
  catalog : List AgentEntry
  enrichedEmpty : Bool
  routeAgentOutcome : CallOutcome RouteParsed

/-- The action-word list of _get_fallback_validation. -/
def action_words : List String :=
  ["send", "create", "make", "generate", "write", "need", "want",
   "help", "can", "how", "what", "rename", "organize", "manage"]

/-- _get_fallback_validation: the deterministic heuristic used when the
validation LLM call fails. -/
def get_fallback_validation (query : String) : ValidationResult :=
  let query_lower := pyStrip (pyLower query)
  if query_lower.length < 3 then
    { is_valid := false, confidence := mkRat 2 10
      reason := "Query is too short to be meaningful"
      suggested_action := "reject" }
  else if !(query_lower.data.any (fun c => c ∈ ['a', 'e', 'i', 'o', 'u'])) then
    { is_valid := false, confidence := mkRat 15 100
      reason := "Query appears to be random characters"
      suggested_action := "reject" }
  else if action_words.any (fun w => containsSub query_lower w) then
    { is_valid := true, confidence := mkRat 65 100
      reason := "Query contains action words but may need clarification"
      suggested_action := "clarify" }
  else
    { is_valid := true, confidence := mkRat 55 100
      reason := "Unable to fully validate query - proceeding with caution"
      suggested_action := "clarify" }

/-- validate_query: LLM call with clamping of the confidence into [0,1];
exceptions, JSON decode errors and missing required fields all fall back to
the local heuristic. -/
def validate_query (query : String) (outcome : CallOutcome ValidationResult) :
    ValidationResult :=
  match outcome with
  | CallOutcome.parsed v => { v with confidence := max 0 (min 1 v.confidence) }
  | _ => get_fallback_validation query

/-- format_rejection_message. -/
def format_rejection_message (v : ValidationResult) : String :=
  let base_message := "I\x27m sorry, but I couldn\x27t process your query. " ++ v.reason
  if v.confidence < mkRat 3 10 then
    base_message ++ "\n\nPlease provide a clear question or request related to the available agents. You can ask \x27What agents are available?\x27 to see what I can help you with."
  else
    base_message ++ "\n\nI can help you with tasks related to document creation, email sending, file management, and other agent-based operations. Please rephrase your request or ask \x27What can you help me with?\x27 for more information."

/-- is_agent_inquiry: the classifier answer is the raw LLM text; an
exception yields false. -/
def is_agent_inquiry (resp : Option String) : Bool :=
  match resp with
  | none => false
  | some r => strStartsWith (pyLower (pyStrip r)) "yes"

/-- answer_agent_inquiry: no exception handling in the source, so a raised
call propagates. -/
def answer_agent_inquiry (resp : Option String) : Except Unit String :=
  match resp with
  | none => Except.error ()
  | some a => Except.ok a

/-- The keyword fallback list of is_confirmation_response. -/
def affirmative_keywords : List String :=
  ["yes", "yeah", "yep", "correct", "right", "sure", "ok", "okay",
   "agree", "proceed", "go"]

/-- is_confirmation_response: only meaningful while awaiting confirmation;
the LLM verdict is startsWith "yes" on the trimmed lowered text, and an
exception falls back to the keyword-substring heuristic. -/
def is_confirmation_response (query : String) (session : ConversationSession)
    (resp : Option String) : Bool :=
  if session.awaiting_confirmation then
    match resp with
    | some r => strStartsWith (pyLower (pyStrip r)) "yes"
    | none => affirmative_keywords.any (fun kw => containsSub query.toLower kw)
  else
    false

/-- The fallback decision built on a JSON decode error in
evaluate_user_response_for_routing (only route, matched_candidates and
reasoning keys are present in the source dict; all other .get reads give
None / defaults). -/
def fallbackRoutingDecision : RoutingDecision :=
  { route := false, agent := none, subagent := none, client_name := none
    wave_number := none, confidence := 0, matched_candidates := []
    reasoning := some "JSON decode error" }

/-- evaluate_user_response_for_routing: the grok_call itself is outside the
try block, so a raised call propagates; only a JSON decode failure is
recovered with the fallback decision. -/
def evaluate_user_response_for_routing (outcome : CallOutcome RoutingDecision) :
    Except Unit RoutingDecision :=
  match outcome with
  | CallOutcome.raise => Except.error ()
  | CallOutcome.unparsable => Except.ok fallbackRoutingDecision
  | CallOutcome.parsed d => Except.ok d

/-- The sticky-parameter merge in the chat handler
(src/app/api/chat.py lines 178-182): a truthy decision value overwrites,
anything else leaves the stored value untouched. -/
def mergeParams (s : ConversationSession) (rd : RoutingDecision) :
    ConversationSession :=
  let s1 := if truthyStr rd.client_name then { s with client_name := rd.client_name } else s
  if truthyStr rd.wave_number then { s1 with wave_number := rd.wave_number } else s1

/-- Return value of ask_progressive_clarification. -/
structure ClarificationResult where
  clarification_question : String
  suggested_agents : List (Option String)
deriving DecidableEq

/-- ask_progressive_clarification: plain-text LLM output (post think-block
stripping, abstracted into the oracle response); empty output and
exceptions each yield their own fixed fallback question. -/
def ask_progressive_clarification (matched_candidates : List Candidate)
    (resp : Option String) : ClarificationResult :=
  match resp with
  | none =>
      { clarification_question := "I can help with that. Could you provide more details about what you\x27d like to do?"
        suggested_agents := [] }
  | some r =>
      let r2 := pyStrip r
      if r2 == "" then
        { clarification_question := "I can help with that. Could you clarify which specific agent or task you\x27d like to proceed with?"
          suggested_agents := [] }
      else
        { clarification_question := r2
          suggested_agents :=
            if matched_candidates.isEmpty then []
            else dedupFirst (matched_candidates.map (fun c => c.agent)) }

/-- Return value of ask_routing_confirmation (fields the handler reads). -/
structure ConfirmationResult where
  confirmation_message : String
  summary : String
  routing_target : String
deriving DecidableEq

/-- ask_routing_confirmation: parsed LLM output with an empty-message
fallback; any exception (including JSON decode) yields the short fallback
question. -/
def ask_routing_confirmation (agent_name subagent_name : Option String)
    (outcome : CallOutcome ConfirmationGen) : ConfirmationResult :=
  let target := if truthyStr subagent_name then pyStr subagent_name else pyStr agent_name
  match outcome with
  | CallOutcome.parsed g =>
      let msg := pyStrip g.confirmation_message
      if msg == "" then
        { confirmation_message := "I\x27ll route you to " ++ target ++ ". Ready to proceed?"
          summary := g.summary, routing_target := target }
      else
        { confirmation_message := msg, summary := g.summary, routing_target := target }
  | _ =>
      { confirmation_message := "Should I route you to " ++ target ++ "?"
        summary := "", routing_target := target }

/-- Result of finalize_routing: either the success dict or the error dict. -/
inductive FinalizeResult where
  | routed (agent : Option String) (subagent : Option String)
      (agent_id : Nat) (subagent_id : Option Nat) (message : String)
  | notFound (message : String)
deriving DecidableEq

/-- The catalog lookup of finalize_routing (query by exact name; a None
agent name matches nothing). -/
def agentLookup (catalog : List AgentEntry) (agent_name : Option String) :
    Option AgentEntry :=
  agent_name.bind (fun an => catalog.find? (fun a => a.name == an))

/-- finalize_routing: resolves names to ids; a missing agent returns the
error dict without finalizing the session, a missing subagent degrades to
subagent_id = None. -/
def finalize_routing (catalog : List AgentEntry) (session : ConversationSession)
    (agent_name subagent_name : Option String) :
    ConversationSession × FinalizeResult :=
  match agentLookup catalog agent_name with
  | none =>
      (session, FinalizeResult.notFound
        ("Agent \x27" ++ pyStr agent_name ++ "\x27 not found"))
  | some agent =>
      let subagent_id :=
        if truthyStr subagent_name then
          (agent.subagents.find? (fun sa => sa.name == pyStr subagent_name)).map
            (fun sa => sa.id)
        else none
      (session.finalize agent.id subagent_id,
       FinalizeResult.routed agent_name subagent_name agent.id subagent_id
         ("Great! Routing to " ++ pyStr (pyOr subagent_name agent_name)))

/-- generate_routing_message: plain-text LLM output (post-processing of the
text abstracted into the oracle response); an exception yields the fixed
fallback message.  The query argument only feeds the prompt and is omitted. -/
def generate_routing_message (agent_name subagent_name : Option String)
    (resp : Option String) : String :=
  match resp with
  | some m => m
  | none =>
      "I understand your need. I\x27m routing you to the " ++
        pyStr (pyOr subagent_name agent_name) ++
        " which can help you with this task."

/-- route_agent (direct mode, src/app/services/llm_service.py): empty
enriched context short-circuits to a null routing; a JSON decode failure
also yields the null routing; a raised grok_call propagates. -/
def route_agent (enrichedEmpty : Bool) (outcome : CallOutcome RouteParsed) :
    Except Unit RouteParsed :=
  if enrichedEmpty then Except.ok { agent := none, subagent := none }
  else
    match outcome with
    | CallOutcome.raise => Except.error ()
    | CallOutcome.unparsable => Except.ok { agent := none, subagent := none }
    | CallOutcome.parsed p => Except.ok p

/-- The routing payload of a conversational routing response
(chat.py lines 270-275; serialized with json.dumps in the source). -/
structure RoutingPayload where
  agent : Option String
  subagent : Option String
  client_name : Option String
  wave_number : Option String
deriving DecidableEq

/-- The discriminated result the chat endpoint returns.  The two routing
constructors both carry wire type "routing": one is produced by the
conversational finalization path, the other by direct mode. -/
inductive ChatResponse where
  | invalid_query (response : String) (confidence : ℚ) (suggested_action : String)
  | agent_inquiry (response : String)
  | confirmation (response : String) (session_id : String)
      (agent_name : Option String) (subagent_name : Option String)
      (summary : String) (routing_target : String)
  | clarification (response : String) (session_id : String)
      (clarification_count : Option Nat)
      (suggested_agents : List (Option String))
  | routing (payload : RoutingPayload) (message : String)
  | routing_direct (agent : Option String) (subagent : Option String)
      (message : String)
deriving DecidableEq

/-- The "type" discriminator string of a response. -/
def rtype : ChatResponse → String
  | ChatResponse.invalid_query _ _ _ => "invalid_query"
  | ChatResponse.agent_inquiry _ => "agent_inquiry"
  | ChatResponse.confirmation _ _ _ _ _ _ => "confirmation"
  | ChatResponse.clarification _ _ _ _ => "clarification"
  | ChatResponse.routing _ _ => "routing"
  | ChatResponse.routing_direct _ _ _ => "routing"

/-- Everything one chat turn produces: the response, the final value of the
session object the turn worked on (the Python object outlives deletion from
the store), and the final store. -/
structure TurnResult where
  resp : ChatResponse
  finalSession : ConversationSession
  store : Store

/-- The configuration flags read by the handler (app/config.py).  The
confidence threshold only affects logging in the source and is carried for
completeness. -/
structure ChatConfig where
  conversation_mode : Bool
  query_validation_enabled : Bool
  validation_confidence_threshold : ℚ

/-- The shipped configuration: CONVERSATION_MODE = True,
QUERY_VALIDATION_ENABLED = True, threshold 0.7. -/
def defaultConfig : ChatConfig :=
  { conversation_mode := true
    query_validation_enabled := true
    validation_confidence_threshold := mkRat 7 10 }

/-- `session_id or "default_session"` (chat.py line 77). -/
def effectiveKey : Option String → String
  | none => "default_session"
  | some s => if s == "" then "default_session" else s

/-- Confirmation branch (chat.py lines 196-225): increment the counter, set
the confirmation state and pending route, generate and append the
confirmation question. -/
def conv_confirm_prompt (o : Oracle) (st : Store) (key : String)
    (s2 : ConversationSession) (agent_name subagent_name : Option String) :
    Except Unit TurnResult :=
  let s3 := { s2 with clarifications_asked := s2.clarifications_asked + 1
                      awaiting_confirmation := true
                      pending_routing_agent := agent_name
                      pending_routing_subagent := subagent_name }
  let conf := ask_routing_confirmation agent_name subagent_name o.confirmGenOutcome
  let s4 := s3.add_message "assistant" conf.confirmation_message
  Except.ok
    { resp := ChatResponse.confirmation conf.confirmation_message s4.session_id
        agent_name subagent_name conf.summary conf.routing_target
      finalSession := s4
      store := storeSet st key s4 }

/-- Missing-parameters branch after an affirmative confirmation
(chat.py lines 231-246): reset the confirmation flag (pending fields are
left as they are) and ask a clarification carrying no clarification_count. -/
def conv_param_clarification (o : Oracle) (st : Store) (key : String)
    (s2 : ConversationSession) (agent_name subagent_name : Option String) :
    Except Unit TurnResult :=
  let s3 := { s2 with awaiting_confirmation := false }
  let clar := ask_progressive_clarification
    [{ agent := agent_name, subagent := subagent_name, reasoning := none }]
    o.clarifyResp
  let s4 := s3.add_message "assistant" clar.clarification_question
  Except.ok
    { resp := ChatResponse.clarification clar.clarification_question
        s4.session_id none clar.suggested_agents
      finalSession := s4
      store := storeSet st key s4 }

/-- Finalization branch (chat.py lines 248-294): clear the confirmation
state, resolve the route (the finalize_routing return value is ignored by
the handler), build the payload from the session parameters, and delete the
session from the store. -/
def conv_finalize (o : Oracle) (st : Store) (key : String)
    (s2 : ConversationSession) (agent_name subagent_name : Option String) :
    Except Unit TurnResult :=
  let s3 := { s2 with awaiting_confirmation := false
                      pending_routing_agent := none
                      pending_routing_subagent := none }
  let s4 := (finalize_routing o.catalog s3 agent_name subagent_name).1
  let s5 := s4.add_message "assistant"
    ("Routing to " ++ pyStr (pyOr subagent_name agent_name))
  let message := generate_routing_message agent_name subagent_name o.routeMsgResp
  let payload : RoutingPayload :=
    { agent := agent_name, subagent := subagent_name
      client_name := s5.client_name, wave_number := s5.wave_number }
  Except.ok
    { resp := ChatResponse.routing payload message
      finalSession := s5
      store := delete_session (storeSet st key s5) s5.session_id }

/-- The route=true arm (chat.py lines 187-294). -/
def conv_route_branch (o : Oracle) (st : Store) (key : String)
    (s2 : ConversationSession) (query : String)
    (agent_name subagent_name : Option String) : Except Unit TurnResult :=
  if !(is_confirmation_response query s2 o.affirmResp) then
    conv_confirm_prompt o st key s2 agent_name subagent_name
  else if !(truthyStr s2.client_name && truthyStr s2.wave_number) then
    conv_param_clarification o st key s2 agent_name subagent_name
  else
    conv_finalize o st key s2 agent_name subagent_name

/-- The route=false arm: progressive clarification (chat.py lines 295-327),
incrementing the counter and reporting it as clarification_count. -/
def conv_no_route (o : Oracle) (st : Store) (key : String)
    (s2 : ConversationSession) (matched : List Candidate) :
    Except Unit TurnResult :=
  let s3 := { s2 with clarifications_asked := s2.clarifications_asked + 1 }
  let clar := ask_progressive_clarification matched o.clarifyResp
  let s4 := s3.add_message "assistant" clar.clarification_question
  Except.ok
    { resp := ChatResponse.clarification clar.clarification_question
        s4.session_id (some s4.clarifications_asked) clar.suggested_agents
      finalSession := s4
      store := storeSet st key s4 }

/-- The CONVERSATION_MODE = True turn (chat.py lines 154-327): append the
user message, evaluate routing readiness (an exception propagates), merge
the sticky parameters, then branch on the route flag. -/
def conversationTurn (o : Oracle) (st : Store) (key : String)
    (session : ConversationSession) (query : String) : Except Unit TurnResult :=
  let s1 := session.add_message "user" query
  match evaluate_user_response_for_routing o.evalRoutingOutcome with
  | Except.error e => Except.error e
  | Except.ok rd =>
      let s2 := mergeParams s1 rd
      if rd.route then
        conv_route_branch o st key s2 query rd.agent rd.subagent
      else
        conv_no_route o st key s2 rd.matched_candidates

/-- The CONVERSATION_MODE = False turn (chat.py lines 329-364): direct
routing; the session object is untouched and stays in the store. -/
def directTurn (o : Oracle) (st : Store) (session : ConversationSession) :
    Except Unit TurnResult :=
  match route_agent o.enrichedEmpty o.routeAgentOutcome with
  | Except.error e => Except.error e
  | Except.ok p =>
      let message := generate_routing_message p.agent p.subagent o.routeMsgResp
      Except.ok
        { resp := ChatResponse.routing_direct p.agent p.subagent message
          finalSession := session
          store := st }

/-- Stages 1-3 of the handler after query validation: agent-inquiry
short-circuit (the untouched session stays as fetched), then the mode
branch. -/
def afterValidation (cfg : ChatConfig) (o : Oracle) (st : Store) (key : String)
    (session : ConversationSession) (query : String) : Except Unit TurnResult :=
  if is_agent_inquiry o.inquiryResp then
    match answer_agent_inquiry o.answerInquiryResp with
    | Except.error e => Except.error e
    | Except.ok ans =>
        Except.ok
          { resp := ChatResponse.agent_inquiry ans
            finalSession := session
            store := st }
  else if cfg.conversation_mode then
    conversationTurn o st key session query
  else
    directTurn o st session

/-- The chat endpoint (src/app/api/chat.py, def chat): fetch or create the
session, run query validation unless the conversation is ongoing or a
confirmation is pending, reject invalid queries, and otherwise continue
into the inquiry / routing stages. -/
def chat (cfg : ChatConfig) (o : Oracle) (st0 : Store) (query : String)
    (session_id : Option String) : Except Unit TurnResult :=
  let key := effectiveKey session_id
  let pr := get_or_create_session st0 key
  let session := pr.1
  let st := pr.2
  let is_ongoing := !session.messages.isEmpty
  let skip_validation :=
    session.awaiting_confirmation || (cfg.conversation_mode && is_ongoing)
  if cfg.query_validation_enabled && !skip_validation then
    let v := validate_query query o.validateOutcome
    if !v.is_valid then
      Except.ok
        { resp := ChatResponse.invalid_query (format_rejection_message v)
            v.confidence v.suggested_action
          finalSession := session
          store := st }
    else
      afterValidation cfg o st key session query
  else
    afterValidation cfg o st key session query

/-- clear_session endpoint (chat.py lines 367-375). -/
def clear_session (st : Store) (session_id : String) : Store :=
  delete_session st session_id

/-! ### Basic preservation lemmas about the session operations -/

@[simp] lemma add_message_session_id (s : ConversationSession) (r c : String) :
    (s.add_message r c).session_id = s.session_id := rfl

@[simp] lemma add_message_client_name (s : ConversationSession) (r c : String) :
    (s.add_message r c).client_name = s.client_name := rfl

@[simp] lemma add_message_wave_number (s : ConversationSession) (r c : String) :
    (s.add_message r c).wave_number = s.wave_number := rfl

@[simp] lemma add_message_awaiting (s : ConversationSession) (r c : String) :
    (s.add_message r c).awaiting_confirmation = s.awaiting_confirmation := rfl

@[simp] lemma add_message_clarifications (s : ConversationSession) (r c : String) :
    (s.add_message r c).clarifications_asked = s.clarifications_asked := rfl

@[simp] lemma add_message_pending_agent (s : ConversationSession) (r c : String) :
    (s.add_message r c).pending_routing_agent = s.pending_routing_agent := rfl

@[simp] lemma add_message_pending_subagent (s : ConversationSession) (r c : String) :
    (s.add_message r c).pending_routing_subagent = s.pending_routing_subagent := rfl

@[simp] lemma add_message_is_finalized (s : ConversationSession) (r c : String) :
    (s.add_message r c).is_finalized = s.is_finalized := rfl

@[simp] lemma mergeParams_session_id (s : ConversationSession) (rd : RoutingDecision) :
    (mergeParams s rd).session_id = s.session_id := by
  unfold mergeParams; split <;> split <;> rfl

@[simp] lemma mergeParams_awaiting (s : ConversationSession) (rd : RoutingDecision) :
    (mergeParams s rd).awaiting_confirmation = s.awaiting_confirmation := by
  unfold mergeParams; split <;> split <;> rfl

@[simp] lemma mergeParams_clarifications (s : ConversationSession) (rd : RoutingDecision) :
    (mergeParams s rd).clarifications_asked = s.clarifications_asked := by
  unfold mergeParams; split <;> split <;> rfl

@[simp] lemma mergeParams_pending_agent (s : ConversationSession) (rd : RoutingDecision) :
    (mergeParams s rd).pending_routing_agent = s.pending_routing_agent := by
  unfold mergeParams; split <;> split <;> rfl

@[simp] lemma mergeParams_pending_subagent (s : ConversationSession) (rd : RoutingDecision) :
    (mergeParams s rd).pending_routing_subagent = s.pending_routing_subagent := by
  unfold mergeParams; split <;> split <;> rfl

@[simp] lemma mergeParams_messages (s : ConversationSession) (rd : RoutingDecision) :
    (mergeParams s rd).messages = s.messages := by
  unfold mergeParams; split <;> split <;> rfl

@[simp] lemma mergeParams_is_finalized (s : ConversationSession) (rd : RoutingDecision) :
    (mergeParams s rd).is_finalized = s.is_finalized := by
  unfold mergeParams; split <;> split <;> rfl

lemma mergeParams_client_name_of_not (s : ConversationSession) (rd : RoutingDecision)
    (h : truthyStr rd.client_name = false) :
    (mergeParams s rd).client_name = s.client_name := by
  unfold mergeParams; rw [h]; simp only [Bool.false_eq_true, if_false]; split <;> rfl

lemma mergeParams_wave_number_of_not (s : ConversationSession) (rd : RoutingDecision)
    (h : truthyStr rd.wave_number = false) :
    (mergeParams s rd).wave_number = s.wave_number := by
  unfold mergeParams; rw [h]; simp only [Bool.false_eq_true, if_false]; split <;> rfl

lemma finalize_routing_fst_client_name (cat : List AgentEntry)
    (s : ConversationSession) (an sn : Option String) :
    ((finalize_routing cat s an sn).1).client_name = s.client_name := by
  unfold finalize_routing; split <;> rfl

lemma finalize_routing_fst_wave_number (cat : List AgentEntry)
    (s : ConversationSession) (an sn : Option String) :
    ((finalize_routing cat s an sn).1).wave_number = s.wave_number := by
  unfold finalize_routing; split <;> rfl

lemma finalize_routing_fst_session_id (cat : List AgentEntry)
    (s : ConversationSession) (an sn : Option String) :
    ((finalize_routing cat s an sn).1).session_id = s.session_id := by
  unfold finalize_routing; split <;> rfl

lemma finalize_routing_fst_clarifications (cat : List AgentEntry)
    (s : ConversationSession) (an sn : Option String) :
    ((finalize_routing cat s an sn).1).clarifications_asked = s.clarifications_asked := by
  unfold finalize_routing; split <;> rfl

lemma finalize_routing_fst_awaiting (cat : List AgentEntry)
    (s : ConversationSession) (an sn : Option String) :
    ((finalize_routing cat s an sn).1).awaiting_confirmation = s.awaiting_confirmation := by
  unfold finalize_routing; split <;> rfl

lemma finalize_routing_fst_pending_agent (cat : List AgentEntry)
    (s : ConversationSession) (an sn : Option String) :
    ((finalize_routing cat s an sn).1).pending_routing_agent = s.pending_routing_agent := by
  unfold finalize_routing; split <;> rfl

lemma finalize_routing_fst_pending_subagent (cat : List AgentEntry)
    (s : ConversationSession) (an sn : Option String) :
    ((finalize_routing cat s an sn).1).pending_routing_subagent = s.pending_routing_subagent := by
  unfold finalize_routing; split <;> rfl

lemma finalize_routing_fst_is_finalized_of_none (cat : List AgentEntry)
    (s : ConversationSession) (an sn : Option String)
    (h : agentLookup cat an = none) :
    ((finalize_routing cat s an sn).1).is_finalized = s.is_finalized := by
  unfold finalize_routing; rw [h]

lemma is_confirmation_true_awaiting (q : String) (s : ConversationSession)
    (resp : Option String) (h : is_confirmation_response q s resp = true) :
    s.awaiting_confirmation = true := by
  unfold is_confirmation_response at h
  cases hb : s.awaiting_confirmation
  · rw [hb] at h; simp at h
  · rfl

lemma answer_agent_inquiry_ok (x : Option String) (a : String)
    (h : answer_agent_inquiry x = Except.ok a) : x = some a := by
  cases x with
  | none => simp [answer_agent_inquiry] at h
  | some b => simp [answer_agent_inquiry] at h; simp [h]

@[simp] lemma storeGet_storeSet_self (st : Store) (k : String) (s : ConversationSession) :
    storeGet (storeSet st k s) k = some s := by
  simp [storeGet, storeSet]

@[simp] lemma storeGet_storeErase_self (st : Store) (k : String) :
    storeGet (storeErase st k) k = none := by
  simp [storeGet, storeErase]

lemma get_or_create_session_of_none (st : Store) (k : String)
    (h : storeGet st k = none) :
    get_or_create_session st k = (newSession k, storeSet st k (newSession k)) := by
  unfold get_or_create_session; rw [h]

/-! ### Inversion lemmas: which branch produced a successful turn -/

lemma conversationTurn_ok_inv {o : Oracle} {st : Store} {key : String}
    {session : ConversationSession} {q : String} {r : TurnResult}
    (h : conversationTurn o st key session q = Except.ok r) :
    ∃ rd, evaluate_user_response_for_routing o.evalRoutingOutcome = Except.ok rd ∧
      ((rd.route = true ∧
          is_confirmation_response q (mergeParams (session.add_message "user" q) rd) o.affirmResp = false ∧
          conv_confirm_prompt o st key (mergeParams (session.add_message "user" q) rd) rd.agent rd.subagent = Except.ok r) ∨
       (rd.route = true ∧
          is_confirmation_response q (mergeParams (session.add_message "user" q) rd) o.affirmResp = true ∧
          (truthyStr (mergeParams (session.add_message "user" q) rd).client_name &&
            truthyStr (mergeParams (session.add_message "user" q) rd).wave_number) = false ∧
          conv_param_clarification o st key (mergeParams (session.add_message "user" q) rd) rd.agent rd.subagent = Except.ok r) ∨
       (rd.route = true ∧
          is_confirmation_response q (mergeParams (session.add_message "user" q) rd) o.affirmResp = true ∧
          (truthyStr (mergeParams (session.add_message "user" q) rd).client_name &&
            truthyStr (mergeParams (session.add_message "user" q) rd).wave_number) = true ∧
          conv_finalize o st key (mergeParams (session.add_message "user" q) rd) rd.agent rd.subagent = Except.ok r) ∨
       (rd.route = false ∧
          conv_no_route o st key (mergeParams (session.add_message "user" q) rd) rd.matched_candidates = Except.ok r)) := by
  simp only [conversationTurn] at h
  split at h
  · exact absurd h (by simp)
  next rd heq =>
    refine ⟨rd, heq, ?_⟩
    split at h
    case isTrue hroute =>
      simp only [conv_route_branch] at h
      split at h
      case isTrue hconf =>
        exact Or.inl ⟨hroute, by simpa using hconf, h⟩
      case isFalse hconf =>
        split at h
        case isTrue hpar =>
          refine Or.inr (Or.inl ⟨hroute, by simpa using hconf, ?_, h⟩)
          revert hpar
          cases (truthyStr (mergeParams (session.add_message "user" q) rd).client_name &&
            truthyStr (mergeParams (session.add_message "user" q) rd).wave_number) <;> simp
        case isFalse hpar =>
          refine Or.inr (Or.inr (Or.inl ⟨hroute, by simpa using hconf, ?_, h⟩))
          revert hpar
          cases (truthyStr (mergeParams (session.add_message "user" q) rd).client_name &&
            truthyStr (mergeParams (session.add_message "user" q) rd).wave_number) <;> simp
    case isFalse hroute =>
      exact Or.inr (Or.inr (Or.inr ⟨by simpa using hroute, h⟩))

lemma afterValidation_ok_inv {cfg : ChatConfig} {o : Oracle} {st : Store}
    {key : String} {session : ConversationSession} {q : String} {r : TurnResult}
    (h : afterValidation cfg o st key session q = Except.ok r) :
    (∃ ans, is_agent_inquiry o.inquiryResp = true ∧ o.answerInquiryResp = some ans ∧
        r = { resp := ChatResponse.agent_inquiry ans, finalSession := session, store := st }) ∨
    (cfg.conversation_mode = true ∧ is_agent_inquiry o.inquiryResp = false ∧
        conversationTurn o st key session q = Except.ok r) ∨
    (cfg.conversation_mode = false ∧ is_agent_inquiry o.inquiryResp = false ∧
        ∃ p, route_agent o.enrichedEmpty o.routeAgentOutcome = Except.ok p ∧
          r = { resp := ChatResponse.routing_direct p.agent p.subagent
                  (generate_routing_message p.agent p.subagent o.routeMsgResp)
                finalSession := session, store := st }) := by
  simp only [afterValidation] at h
  split at h
  case isTrue hinq =>
    split at h
    · exact absurd h (by simp)
    next ans heq =>
      refine Or.inl ⟨ans, hinq, answer_agent_inquiry_ok _ _ heq, ?_⟩
      cases h; rfl
  case isFalse hinq =>
    split at h
    case isTrue hcm =>
      exact Or.inr (Or.inl ⟨hcm, by simpa using hinq, h⟩)
    case isFalse hcm =>
      refine Or.inr (Or.inr ⟨by simpa using hcm, by simpa using hinq, ?_⟩)
      simp only [directTurn] at h
      split at h
      · exact absurd h (by simp)
      next p heq =>
        refine ⟨p, heq, ?_⟩
        cases h; rfl

lemma chat_ok_inv {cfg : ChatConfig} {o : Oracle} {st0 : Store} {q : String}
    {sid : Option String} {r : TurnResult}
    (h : chat cfg o st0 q sid = Except.ok r) :
    ((validate_query q o.validateOutcome).is_valid = false ∧
       cfg.query_validation_enabled = true ∧
       ((get_or_create_session st0 (effectiveKey sid)).1.awaiting_confirmation ||
         (cfg.conversation_mode && !(get_or_create_session st0 (effectiveKey sid)).1.messages.isEmpty)) = false ∧
       r = { resp := ChatResponse.invalid_query
               (format_rejection_message (validate_query q o.validateOutcome))
               (validate_query q o.validateOutcome).confidence
               (validate_query q o.validateOutcome).suggested_action
             finalSession := (get_or_create_session st0 (effectiveKey sid)).1
             store := (get_or_create_session st0 (effectiveKey sid)).2 }) ∨
    afterValidation cfg o (get_or_create_session st0 (effectiveKey sid)).2
      (effectiveKey sid) (get_or_create_session st0 (effectiveKey sid)).1 q = Except.ok r := by
  simp only [chat] at h
  split at h
  case isTrue hval =>
    split at h
    case isTrue hinv =>
      refine Or.inl ⟨by simpa using hinv, ?_, ?_, ?_⟩
      · exact (Bool.and_eq_true _ _ |>.mp hval).1
      · have h2 := (Bool.and_eq_true _ _ |>.mp hval).2
        revert h2
        cases ((get_or_create_session st0 (effectiveKey sid)).1.awaiting_confirmation ||
          (cfg.conversation_mode && !(get_or_create_session st0 (effectiveKey sid)).1.messages.isEmpty)) <;> simp
      · cases h; rfl
    case isFalse hinv => exact Or.inr h
  case isFalse hval => exact Or.inr h

/-! ### Characterizations of the four conversational branches -/

lemma conv_confirm_prompt_inv {o : Oracle} {st : Store} {key : String}
    {s2 : ConversationSession} {an sn : Option String} {r : TurnResult}
    (h : conv_confirm_prompt o st key s2 an sn = Except.ok r) :
    (∃ m sid2 sum tgt, r.resp = ChatResponse.confirmation m sid2 an sn sum tgt) ∧
    r.finalSession.clarifications_asked = s2.clarifications_asked + 1 ∧
    r.finalSession.awaiting_confirmation = true ∧
    r.finalSession.pending_routing_agent = an ∧
    r.finalSession.pending_routing_subagent = sn ∧
    r.finalSession.client_name = s2.client_name ∧
    r.finalSession.wave_number = s2.wave_number ∧
    r.finalSession.session_id = s2.session_id ∧
    r.store = storeSet st key r.finalSession := by
  simp only [conv_confirm_prompt] at h
  rw [Except.ok.injEq] at h
  subst h
  refine ⟨⟨_, _, _, _, rfl⟩, rfl, rfl, rfl, rfl, rfl, rfl, rfl, rfl⟩

lemma conv_param_clarification_inv {o : Oracle} {st : Store} {key : String}
    {s2 : ConversationSession} {an sn : Option String} {r : TurnResult}
    (h : conv_param_clarification o st key s2 an sn = Except.ok r) :
    (∃ m sid2 ags, r.resp = ChatResponse.clarification m sid2 none ags) ∧
    r.finalSession.clarifications_asked = s2.clarifications_asked ∧
    r.finalSession.awaiting_confirmation = false ∧
    r.finalSession.pending_routing_agent = s2.pending_routing_agent ∧
    r.finalSession.pending_routing_subagent = s2.pending_routing_subagent ∧
    r.finalSession.client_name = s2.client_name ∧
    r.finalSession.wave_number = s2.wave_number ∧
    r.finalSession.session_id = s2.session_id ∧
    r.store = storeSet st key r.finalSession := by
  simp only [conv_param_clarification] at h
  rw [Except.ok.injEq] at h
  subst h
  refine ⟨⟨_, _, _, rfl⟩, rfl, rfl, rfl, rfl, rfl, rfl, rfl, rfl⟩

lemma conv_finalize_inv {o : Oracle} {st : Store} {key : String}
    {s2 : ConversationSession} {an sn : Option String} {r : TurnResult}
    (h : conv_finalize o st key s2 an sn = Except.ok r) :
    r.resp = ChatResponse.routing
      { agent := an, subagent := sn
        client_name := s2.client_name, wave_number := s2.wave_number }
      (generate_routing_message an sn o.routeMsgResp) ∧
    r.finalSession.clarifications_asked = s2.clarifications_asked ∧
    r.finalSession.awaiting_confirmation = false ∧
    r.finalSession.pending_routing_agent = none ∧
    r.finalSession.pending_routing_subagent = none ∧
    r.finalSession.client_name = s2.client_name ∧
    r.finalSession.wave_number = s2.wave_number ∧
    r.finalSession.session_id = s2.session_id ∧
    (agentLookup o.catalog an = none → r.finalSession.is_finalized = s2.is_finalized) ∧
    r.store = delete_session (storeSet st key r.finalSession) r.finalSession.session_id := by
  simp only [conv_finalize] at h
  rw [Except.ok.injEq] at h
  subst h
  refine ⟨?_, ?_, ?_, ?_, ?_, ?_, ?_, ?_, ?_, rfl⟩
  · simp [finalize_routing_fst_client_name, finalize_routing_fst_wave_number]
  · simp [finalize_routing_fst_clarifications]
  · simp [finalize_routing_fst_awaiting]
  · simp [finalize_routing_fst_pending_agent]
  · simp [finalize_routing_fst_pending_subagent]
  · simp [finalize_routing_fst_client_name]
  · simp [finalize_routing_fst_wave_number]
  · simp [finalize_routing_fst_session_id]
  · intro hnone
    simp [finalize_routing_fst_is_finalized_of_none _ _ _ _ hnone]

lemma conv_no_route_inv {o : Oracle} {st : Store} {key : String}
    {s2 : ConversationSession} {cands : List Candidate} {r : TurnResult}
    (h : conv_no_route o st key s2 cands = Except.ok r) :
    (∃ m sid2 ags, r.resp = ChatResponse.clarification m sid2
        (some (s2.clarifications_asked + 1)) ags) ∧
    r.finalSession.clarifications_asked = s2.clarifications_asked + 1 ∧
    r.finalSession.awaiting_confirmation = s2.awaiting_confirmation ∧
    r.finalSession.pending_routing_agent = s2.pending_routing_agent ∧
    r.finalSession.pending_routing_subagent = s2.pending_routing_subagent ∧
    r.finalSession.client_name = s2.client_name ∧
    r.finalSession.wave_number = s2.wave_number ∧
    r.finalSession.session_id = s2.session_id ∧
    r.store = storeSet st key r.finalSession := by
  simp only [conv_no_route] at h
  rw [Except.ok.injEq] at h
  subst h
  refine ⟨⟨_, _, _, rfl⟩, rfl, rfl, rfl, rfl, rfl, rfl, rfl, rfl⟩

/-! ### Concrete fixtures used by the witnesses and counterexamples -/

/-- A benign parsed validation verdict. -/
def vOkFix : ValidationResult :=
  { is_valid := true, confidence := mkRat 9 10, reason := "clear", suggested_action := "proceed" }

/-- A routing decision that proposes the Email Agent with both mandatory
parameters extracted. -/
def rdRouteFull : RoutingDecision :=
  { route := true, agent := some "Email Agent", subagent := none
    client_name := some "Acme", wave_number := some "2", confidence := mkRat 9 10
    matched_candidates := [], reasoning := none }

/-- A routing decision that proposes the Email Agent without parameters. -/
def rdRouteNoParams : RoutingDecision :=
  { route := true, agent := some "Email Agent", subagent := none
    client_name := none, wave_number := none, confidence := mkRat 9 10
    matched_candidates := [], reasoning := none }

/-- A baseline oracle: every call succeeds, the query is valid, it is not
an inquiry, the user is affirmative, and the catalog holds the Email Agent. -/
def oBase : Oracle :=
  { validateOutcome := CallOutcome.parsed vOkFix
    inquiryResp := some "no"
    answerInquiryResp := some "The Email Agent sends emails."
    evalRoutingOutcome := CallOutcome.parsed rdRouteFull
    affirmResp := some "yes"
    confirmGenOutcome := CallOutcome.parsed
      { confirmation_message := "Route to Email Agent?", summary := "send email"
        agent_description := "emails" }
    clarifyResp := some "Which agent should handle this?"
    routeMsgResp := some "Routing you to the Email Agent now."
    catalog := [{ id := 1, name := "Email Agent", subagents := [] }]
    enrichedEmpty := true
    routeAgentOutcome := CallOutcome.unparsable }

/-- A session that is awaiting confirmation of the Email Agent route. -/
def sessAwait : ConversationSession :=
  { newSession "s1" with
    awaiting_confirmation := true
    pending_routing_agent := some "Email Agent"
    clarifications_asked := 1
    messages := [{ role := "assistant", content := "Route to Email Agent?" }] }

/-- A store holding only sessAwait. -/
def stAwait : Store := storeSet emptyStore "s1" sessAwait

/-- An awaiting session with five clarifications already asked. -/
def sessAwait5 : ConversationSession :=
  { newSession "s4" with
    awaiting_confirmation := true
    pending_routing_agent := some "Email Agent"
    pending_routing_subagent := some "Gmail"
    clarifications_asked := 5
    messages := [{ role := "assistant", content := "Route to Email Agent?" }] }

/-- A store holding only sessAwait5. -/
def stAwait5 : Store := storeSet emptyStore "s4" sessAwait5

/-! ### Claims -/

/-- Claim C1: in conversation mode a turn returns a result of type
"routing" (reaching finalize_routing) only if, at that moment, the
session's client_name and wave_number are both non-empty, the session was
awaiting confirmation, and is_confirmation_response judged the current
query affirmative; no other path finalizes a session. -/
theorem chat_routing_requires_confirmed_params
    (cfg : ChatConfig) (o : Oracle) (st0 : Store) (q : String)
    (sid : Option String) (r : TurnResult)
    (hcm : cfg.conversation_mode = true)
    (h : chat cfg o st0 q sid = Except.ok r)
    (hr : rtype r.resp = "routing") :
    ∃ rd, evaluate_user_response_for_routing o.evalRoutingOutcome = Except.ok rd ∧
      (get_or_create_session st0 (effectiveKey sid)).1.awaiting_confirmation = true ∧
      is_confirmation_response q
        (mergeParams ((get_or_create_session st0 (effectiveKey sid)).1.add_message "user" q) rd)
        o.affirmResp = true ∧
      truthyStr (mergeParams ((get_or_create_session st0 (effectiveKey sid)).1.add_message "user" q) rd).client_name = true ∧
      truthyStr (mergeParams ((get_or_create_session st0 (effectiveKey sid)).1.add_message "user" q) rd).wave_number = true := by
  rcases chat_ok_inv h with ⟨hv, hen, hskip, hre⟩ | hAv
  · rw [hre] at hr; simp only [rtype] at hr; exact absurd hr (by decide)
  rcases afterValidation_ok_inv hAv with ⟨ans, hinq, hans, hre⟩ | ⟨_, hinq, hconv⟩ | ⟨hcm2, _, _⟩
  · rw [hre] at hr; simp only [rtype] at hr; exact absurd hr (by decide)
  swap
  · rw [hcm] at hcm2; exact absurd hcm2 (by decide)
  rcases conversationTurn_ok_inv hconv with ⟨rd, heval, hcase⟩
  rcases hcase with ⟨_, _, hb⟩ | ⟨_, _, _, hb⟩ | ⟨hroute, hconf, hpar, hb⟩ | ⟨_, hb⟩
  · obtain ⟨m, sid2, sum, tgt, hshape⟩ := (conv_confirm_prompt_inv hb).1
    rw [hshape] at hr; simp only [rtype] at hr; exact absurd hr (by decide)
  · obtain ⟨m, sid2, ags, hshape⟩ := (conv_param_clarification_inv hb).1
    rw [hshape] at hr; simp only [rtype] at hr; exact absurd hr (by decide)
  · refine ⟨rd, heval, ?_, hconf, ?_, ?_⟩
    · have hw := is_confirmation_true_awaiting _ _ _ hconf
      simpa using hw
    · exact (Bool.and_eq_true _ _ |>.mp hpar).1
    · exact (Bool.and_eq_true _ _ |>.mp hpar).2
  · obtain ⟨m, sid2, ags, hshape⟩ := (conv_no_route_inv hb).1
    rw [hshape] at hr; simp only [rtype] at hr; exact absurd hr (by decide)

/-- Witness for C1: a concrete awaiting-confirmation turn that routes,
with all hypotheses discharged at that input. -/
theorem chat_routing_requires_confirmed_params_witness :
    ∃ rd, evaluate_user_response_for_routing oBase.evalRoutingOutcome = Except.ok rd ∧
      (get_or_create_session stAwait (effectiveKey (some "s1"))).1.awaiting_confirmation = true ∧
      is_confirmation_response "yes"
        (mergeParams ((get_or_create_session stAwait (effectiveKey (some "s1"))).1.add_message "user" "yes") rd)
        oBase.affirmResp = true ∧
      truthyStr (mergeParams ((get_or_create_session stAwait (effectiveKey (some "s1"))).1.add_message "user" "yes") rd).client_name = true ∧
      truthyStr (mergeParams ((get_or_create_session stAwait (effectiveKey (some "s1"))).1.add_message "user" "yes") rd).wave_number = true :=
  chat_routing_requires_confirmed_params defaultConfig oBase stAwait "yes" (some "s1")
    _ rfl rfl rfl

/-- Oracle whose catalog does not contain the confirmed agent. -/
def oGhost : Oracle := { oBase with catalog := [] }

/-- Counterexample for C2: with the confirmed agent absent from the
catalog, the turn does NOT fail with a routing error: it still returns a
result of wire type "routing" and the session is deleted from the store
(so it is not "left un-finalized and still present"). -/
theorem chat_unknown_agent_counterexample :
    ∃ r, chat defaultConfig oGhost stAwait "yes" (some "s1") = Except.ok r ∧
      rtype r.resp = "routing" ∧
      r.finalSession.is_finalized = false ∧
      storeGet r.store "s1" = none ∧
      agentLookup oGhost.catalog (some "Email Agent") = none :=
  ⟨_, rfl, rfl, rfl, rfl, rfl⟩

/-- Claim C2 (amended): when the confirmed agent name is not found in the
catalog at finalize time, finalize_routing returns an error value that the
chat handler ignores: the turn still returns a result of type "routing",
the session is never marked finalized, and it is deleted from the store. -/
theorem chat_unknown_agent_still_routes
    (cfg : ChatConfig) (o : Oracle) (st0 : Store) (q : String)
    (sid : Option String) (r : TurnResult) (p : RoutingPayload) (msg : String)
    (hcm : cfg.conversation_mode = true)
    (h : chat cfg o st0 q sid = Except.ok r)
    (hr : r.resp = ChatResponse.routing p msg)
    (hid : (get_or_create_session st0 (effectiveKey sid)).1.session_id = effectiveKey sid)
    (hlk : agentLookup o.catalog p.agent = none) :
    storeGet r.store (effectiveKey sid) = none ∧
    r.finalSession.is_finalized =
      (get_or_create_session st0 (effectiveKey sid)).1.is_finalized := by
  rcases chat_ok_inv h with ⟨hv, hen, hskip, hre⟩ | hAv
  · rw [hre] at hr; simp at hr
  rcases afterValidation_ok_inv hAv with ⟨ans, hinq, hans, hre⟩ | ⟨_, hinq, hconv⟩ | ⟨hcm2, _, _⟩
  · rw [hre] at hr; simp at hr
  swap
  · rw [hcm] at hcm2; exact absurd hcm2 (by decide)
  rcases conversationTurn_ok_inv hconv with ⟨rd, heval, hcase⟩
  rcases hcase with ⟨_, _, hb⟩ | ⟨_, _, _, hb⟩ | ⟨hroute, hconf, hpar, hb⟩ | ⟨_, hb⟩
  · obtain ⟨m, sid2, sum, tgt, hshape⟩ := (conv_confirm_prompt_inv hb).1
    rw [hshape] at hr; simp at hr
  · obtain ⟨m, sid2, ags, hshape⟩ := (conv_param_clarification_inv hb).1
    rw [hshape] at hr; simp at hr
  · obtain ⟨hresp, _, _, _, _, _, _, hsid, hfin, hstore⟩ := conv_finalize_inv hb
    rw [hresp] at hr
    have hag : p.agent = rd.agent := by
      have := hr.symm
      injection this with h1 h2
      rw [h1]
    have hlk2 : agentLookup o.catalog rd.agent = none := by rw [← hag]; exact hlk
    have hsid2 : r.finalSession.session_id = effectiveKey sid := by
      rw [hsid]; simp [hid]
    constructor
    · rw [hstore, ← hsid2]
      simp [delete_session]
    · rw [hfin hlk2]; simp
  · obtain ⟨m, sid2, ags, hshape⟩ := (conv_no_route_inv hb).1
    rw [hshape] at hr; simp at hr

/-- Witness for C2 (amended): the ghost-agent run, with every hypothesis
discharged concretely. -/
theorem chat_unknown_agent_still_routes_witness :
    storeGet (TurnResult.store ((chat defaultConfig oGhost stAwait "yes" (some "s1")).toOption.getD
      { resp := ChatResponse.agent_inquiry "", finalSession := newSession "x", store := emptyStore }))
      (effectiveKey (some "s1")) = none ∧
    (TurnResult.finalSession ((chat defaultConfig oGhost stAwait "yes" (some "s1")).toOption.getD
      { resp := ChatResponse.agent_inquiry "", finalSession := newSession "x", store := emptyStore })).is_finalized =
      (get_or_create_session stAwait (effectiveKey (some "s1"))).1.is_finalized :=
  chat_unknown_agent_still_routes defaultConfig oGhost stAwait "yes" (some "s1")
    _ _ _ rfl rfl rfl rfl rfl

/-- Oracle whose routing evaluation proposes a route without parameters. -/
def oNoParams : Oracle :=
  { oBase with evalRoutingOutcome := CallOutcome.parsed rdRouteNoParams }

/-- Claim C3: if the routing decision of a turn carries an empty or missing
client_name (resp. wave_number), the session's stored client_name
(resp. wave_number) is unchanged by that turn; a stored value is never
overwritten with empty or null. -/
theorem chat_sticky_params
    (cfg : ChatConfig) (o : Oracle) (st0 : Store) (q : String)
    (sid : Option String) (r : TurnResult) (rd : RoutingDecision)
    (h : chat cfg o st0 q sid = Except.ok r)
    (hev : evaluate_user_response_for_routing o.evalRoutingOutcome = Except.ok rd) :
    (truthyStr rd.client_name = false →
      r.finalSession.client_name = (get_or_create_session st0 (effectiveKey sid)).1.client_name) ∧
    (truthyStr rd.wave_number = false →
      r.finalSession.wave_number = (get_or_create_session st0 (effectiveKey sid)).1.wave_number) := by
  rcases chat_ok_inv h with ⟨hv, hen, hskip, hre⟩ | hAv
  · rw [hre]; exact ⟨fun _ => rfl, fun _ => rfl⟩
  rcases afterValidation_ok_inv hAv with ⟨ans, hinq, hans, hre⟩ | ⟨_, hinq, hconv⟩ | ⟨_, _, p2, hp, hre⟩
  · rw [hre]; exact ⟨fun _ => rfl, fun _ => rfl⟩
  swap
  · rw [hre]; exact ⟨fun _ => rfl, fun _ => rfl⟩
  rcases conversationTurn_ok_inv hconv with ⟨rd2, heval, hcase⟩
  have hrd : rd2 = rd := by rw [hev] at heval; injection heval with hx; rw [hx]
  subst hrd
  have key_cl : ∀ s2cl, s2cl = (mergeParams ((get_or_create_session st0 (effectiveKey sid)).1.add_message "user" q) rd2).client_name →
      truthyStr rd2.client_name = false →
      s2cl = (get_or_create_session st0 (effectiveKey sid)).1.client_name := by
    intro s2cl hs2 hcl
    rw [hs2, mergeParams_client_name_of_not _ _ hcl, add_message_client_name]
  have key_wv : ∀ s2wv, s2wv = (mergeParams ((get_or_create_session st0 (effectiveKey sid)).1.add_message "user" q) rd2).wave_number →
      truthyStr rd2.wave_number = false →
      s2wv = (get_or_create_session st0 (effectiveKey sid)).1.wave_number := by
    intro s2wv hs2 hwv
    rw [hs2, mergeParams_wave_number_of_not _ _ hwv, add_message_wave_number]
  rcases hcase with ⟨_, _, hb⟩ | ⟨_, _, _, hb⟩ | ⟨_, _, _, hb⟩ | ⟨_, hb⟩
  · obtain ⟨_, _, _, _, _, hcl, hwv, _, _⟩ := conv_confirm_prompt_inv hb
    exact ⟨key_cl _ hcl, key_wv _ hwv⟩
  · obtain ⟨_, _, _, _, _, hcl, hwv, _, _⟩ := conv_param_clarification_inv hb
    exact ⟨key_cl _ hcl, key_wv _ hwv⟩
  · obtain ⟨_, _, _, _, _, hcl, hwv, _, _, _⟩ := conv_finalize_inv hb
    exact ⟨key_cl _ hcl, key_wv _ hwv⟩
  · obtain ⟨_, _, _, _, _, hcl, hwv, _, _⟩ := conv_no_route_inv hb
    exact ⟨key_cl _ hcl, key_wv _ hwv⟩

/-- Witness for C3: a turn whose routing decision omits both parameters
leaves the stored values ("Acme", "2") untouched. -/
theorem chat_sticky_params_witness :
    (truthyStr rdRouteNoParams.client_name = false →
      (TurnResult.finalSession ((chat defaultConfig oNoParams
        (storeSet emptyStore "s3" { sessAwait with session_id := "s3", client_name := some "Acme", wave_number := some "2" })
        "yes" (some "s3")).toOption.getD
          { resp := ChatResponse.agent_inquiry "", finalSession := newSession "x", store := emptyStore })).client_name =
      (get_or_create_session (storeSet emptyStore "s3" { sessAwait with session_id := "s3", client_name := some "Acme", wave_number := some "2" }) (effectiveKey (some "s3"))).1.client_name) ∧
    (truthyStr rdRouteNoParams.wave_number = false →
      (TurnResult.finalSession ((chat defaultConfig oNoParams
        (storeSet emptyStore "s3" { sessAwait with session_id := "s3", client_name := some "Acme", wave_number := some "2" })
        "yes" (some "s3")).toOption.getD
          { resp := ChatResponse.agent_inquiry "", finalSession := newSession "x", store := emptyStore })).wave_number =
      (get_or_create_session (storeSet emptyStore "s3" { sessAwait with session_id := "s3", client_name := some "Acme", wave_number := some "2" }) (effectiveKey (some "s3"))).1.wave_number) :=
  chat_sticky_params defaultConfig oNoParams
    (storeSet emptyStore "s3" { sessAwait with session_id := "s3", client_name := some "Acme", wave_number := some "2" })
    "yes" (some "s3") _ rdRouteNoParams rfl rfl

/-- Counterexample for C4: a clarification turn (the missing-parameters
clarification issued after an affirmative confirmation) that does NOT
increment clarifications_asked: it stays at 5. -/
theorem chat_param_clarification_no_increment :
    ∃ r, chat defaultConfig oNoParams stAwait5 "yes" (some "s4") = Except.ok r ∧
      rtype r.resp = "clarification" ∧
      sessAwait5.clarifications_asked = 5 ∧
      r.finalSession.clarifications_asked = 5 :=
  ⟨_, rfl, rfl, rfl, rfl⟩

/-- Claim C4 (amended): clarifications_asked never decreases across a turn;
confirmation turns and progressive (no-route) clarification turns - the
ones whose response carries a clarification_count - increment it by exactly
one; the missing-parameters clarification issued after an affirmative
confirmation (response without clarification_count) leaves it unchanged, as
do all other result types. -/
theorem chat_clarifications_counter
    (cfg : ChatConfig) (o : Oracle) (st0 : Store) (q : String)
    (sid : Option String) (r : TurnResult)
    (h : chat cfg o st0 q sid = Except.ok r) :
    (get_or_create_session st0 (effectiveKey sid)).1.clarifications_asked ≤
      r.finalSession.clarifications_asked ∧
    (rtype r.resp = "confirmation" →
      r.finalSession.clarifications_asked =
        (get_or_create_session st0 (effectiveKey sid)).1.clarifications_asked + 1) ∧
    (∀ m sid2 n ags, r.resp = ChatResponse.clarification m sid2 (some n) ags →
      r.finalSession.clarifications_asked =
        (get_or_create_session st0 (effectiveKey sid)).1.clarifications_asked + 1) ∧
    (∀ m sid2 ags, r.resp = ChatResponse.clarification m sid2 none ags →
      r.finalSession.clarifications_asked =
        (get_or_create_session st0 (effectiveKey sid)).1.clarifications_asked) ∧
    (rtype r.resp = "routing" →
      r.finalSession.clarifications_asked =
        (get_or_create_session st0 (effectiveKey sid)).1.clarifications_asked) ∧
    (rtype r.resp = "agent_inquiry" →
      r.finalSession.clarifications_asked =
        (get_or_create_session st0 (effectiveKey sid)).1.clarifications_asked) ∧
    (rtype r.resp = "invalid_query" →
      r.finalSession.clarifications_asked =
        (get_or_create_session st0 (effectiveKey sid)).1.clarifications_asked) := by
  rcases chat_ok_inv h with ⟨hv, hen, hskip, hre⟩ | hAv
  · rw [hre]
    refine ⟨le_refl _, ?_, ?_, ?_, ?_, ?_, fun _ => rfl⟩
    · intro hx; simp [rtype] at hx
    · intro m sid2 n ags hx; simp at hx
    · intro m sid2 ags hx; simp at hx
    · intro hx; simp [rtype] at hx
    · intro hx; simp [rtype] at hx
  rcases afterValidation_ok_inv hAv with ⟨ans, hinq, hans, hre⟩ | ⟨_, hinq, hconv⟩ | ⟨_, _, p2, hp, hre⟩
  · rw [hre]
    refine ⟨le_refl _, ?_, ?_, ?_, ?_, fun _ => rfl, ?_⟩
    · intro hx; simp [rtype] at hx
    · intro m sid2 n ags hx; simp at hx
    · intro m sid2 ags hx; simp at hx
    · intro hx; simp [rtype] at hx
    · intro hx; simp [rtype] at hx
  swap
  · rw [hre]
    refine ⟨le_refl _, ?_, ?_, ?_, fun _ => rfl, ?_, ?_⟩
    · intro hx; simp [rtype] at hx
    · intro m sid2 n ags hx; simp at hx
    · intro m sid2 ags hx; simp at hx
    · intro hx; simp [rtype] at hx
    · intro hx; simp [rtype] at hx
  rcases conversationTurn_ok_inv hconv with ⟨rd, heval, hcase⟩
  rcases hcase with ⟨_, _, hb⟩ | ⟨_, _, _, hb⟩ | ⟨_, _, _, hb⟩ | ⟨_, hb⟩
  · obtain ⟨⟨m, sid2, sum, tgt, hshape⟩, hcnt, _⟩ := conv_confirm_prompt_inv hb
    have hcnt2 : r.finalSession.clarifications_asked =
        (get_or_create_session st0 (effectiveKey sid)).1.clarifications_asked + 1 := by
      rw [hcnt]; simp
    refine ⟨by rw [hcnt2]; exact Nat.le_succ _, fun _ => hcnt2, ?_, ?_, ?_, ?_, ?_⟩
    · intro m2 sid3 n ags hx; rw [hshape] at hx; simp at hx
    · intro m2 sid3 ags hx; rw [hshape] at hx; simp at hx
    · intro hx; rw [hshape] at hx; simp only [rtype] at hx; exact absurd hx (by decide)
    · intro hx; rw [hshape] at hx; simp only [rtype] at hx; exact absurd hx (by decide)
    · intro hx; rw [hshape] at hx; simp only [rtype] at hx; exact absurd hx (by decide)
  · obtain ⟨⟨m, sid2, ags, hshape⟩, hcnt, _⟩ := conv_param_clarification_inv hb
    have hcnt2 : r.finalSession.clarifications_asked =
        (get_or_create_session st0 (effectiveKey sid)).1.clarifications_asked := by
      rw [hcnt]; simp
    refine ⟨le_of_eq hcnt2.symm, ?_, ?_, fun _ _ _ _ => hcnt2, ?_, ?_, ?_⟩
    · intro hx; rw [hshape] at hx; simp only [rtype] at hx; exact absurd hx (by decide)
    · intro m2 sid3 n ags2 hx; rw [hshape] at hx; simp at hx
    · intro hx; rw [hshape] at hx; simp only [rtype] at hx; exact absurd hx (by decide)
    · intro hx; rw [hshape] at hx; simp only [rtype] at hx; exact absurd hx (by decide)
    · intro hx; rw [hshape] at hx; simp only [rtype] at hx; exact absurd hx (by decide)
  · obtain ⟨hshape, hcnt, _⟩ := conv_finalize_inv hb
    have hcnt2 : r.finalSession.clarifications_asked =
        (get_or_create_session st0 (effectiveKey sid)).1.clarifications_asked := by
      rw [hcnt]; simp
    refine ⟨le_of_eq hcnt2.symm, ?_, ?_, ?_, fun _ => hcnt2, ?_, ?_⟩
    · intro hx; rw [hshape] at hx; simp only [rtype] at hx; exact absurd hx (by decide)
    · intro m2 sid3 n ags hx; rw [hshape] at hx; simp at hx
    · intro m2 sid3 ags hx; rw [hshape] at hx; simp at hx
    · intro hx; rw [hshape] at hx; simp only [rtype] at hx; exact absurd hx (by decide)
    · intro hx; rw [hshape] at hx; simp only [rtype] at hx; exact absurd hx (by decide)
  · obtain ⟨⟨m, sid2, ags, hshape⟩, hcnt, _⟩ := conv_no_route_inv hb
    have hcnt2 : r.finalSession.clarifications_asked =
        (get_or_create_session st0 (effectiveKey sid)).1.clarifications_asked + 1 := by
      rw [hcnt]; simp
    refine ⟨by rw [hcnt2]; exact Nat.le_succ _, ?_, fun _ _ _ _ _ => hcnt2, ?_, ?_, ?_, ?_⟩
    · intro hx; rw [hshape] at hx; simp only [rtype] at hx; exact absurd hx (by decide)
    · intro m2 sid3 ags2 hx; rw [hshape] at hx; simp at hx
    · intro hx; rw [hshape] at hx; simp only [rtype] at hx; exact absurd hx (by decide)
    · intro hx; rw [hshape] at hx; simp only [rtype] at hx; exact absurd hx (by decide)
    · intro hx; rw [hshape] at hx; simp only [rtype] at hx; exact absurd hx (by decide)

/-- Witness for C4 (amended): a confirmation turn on a fresh session,
where the counter goes from 0 to 1. -/
theorem chat_clarifications_counter_witness :
    (get_or_create_session emptyStore (effectiveKey (some "s6"))).1.clarifications_asked ≤
      (TurnResult.finalSession ((chat defaultConfig oBase emptyStore "send the wave 2 email for Acme" (some "s6")).toOption.getD
        { resp := ChatResponse.agent_inquiry "", finalSession := newSession "x", store := emptyStore })).clarifications_asked ∧
    (rtype (TurnResult.resp ((chat defaultConfig oBase emptyStore "send the wave 2 email for Acme" (some "s6")).toOption.getD
        { resp := ChatResponse.agent_inquiry "", finalSession := newSession "x", store := emptyStore })) = "confirmation" →
      (TurnResult.finalSession ((chat defaultConfig oBase emptyStore "send the wave 2 email for Acme" (some "s6")).toOption.getD
        { resp := ChatResponse.agent_inquiry "", finalSession := newSession "x", store := emptyStore })).clarifications_asked =
        (get_or_create_session emptyStore (effectiveKey (some "s6"))).1.clarifications_asked + 1) :=
  ⟨(chat_clarifications_counter defaultConfig oBase emptyStore
      "send the wave 2 email for Acme" (some "s6") _ rfl).1,
   (chat_clarifications_counter defaultConfig oBase emptyStore
      "send the wave 2 email for Acme" (some "s6") _ rfl).2.1⟩

/-- Oracle whose routing-evaluation LLM call raises. -/
def oEvalRaise : Oracle := { oBase with evalRoutingOutcome := CallOutcome.raise }

/-- Counterexample for C5: when the routing-evaluation LLM call raises, the
turn does NOT return a normal discriminated result - the exception
propagates to the caller (the grok_call at conversation_service.py line 262
is outside the try block). -/
theorem chat_eval_raise_propagates :
    chat defaultConfig oEvalRaise emptyStore "route me please" (some "s5") =
      Except.error () := rfl

/-! Totality helpers for the amended C5. -/

lemma conv_route_branch_total (o : Oracle) (st : Store) (key : String)
    (s2 : ConversationSession) (q : String) (an sn : Option String) :
    ∃ r, conv_route_branch o st key s2 q an sn = Except.ok r := by
  unfold conv_route_branch
  split
  · exact ⟨_, rfl⟩
  split
  · exact ⟨_, rfl⟩
  · exact ⟨_, rfl⟩

lemma conversationTurn_total (o : Oracle) (st : Store) (key : String)
    (session : ConversationSession) (q : String)
    (hev : o.evalRoutingOutcome ≠ CallOutcome.raise) :
    ∃ r, conversationTurn o st key session q = Except.ok r := by
  simp only [conversationTurn]
  cases hoc : o.evalRoutingOutcome with
  | raise => exact absurd hoc hev
  | unparsable =>
      simp only [evaluate_user_response_for_routing]
      split
      · exact conv_route_branch_total _ _ _ _ _ _ _
      · exact ⟨_, rfl⟩
  | parsed d =>
      simp only [evaluate_user_response_for_routing]
      split
      · exact conv_route_branch_total _ _ _ _ _ _ _
      · exact ⟨_, rfl⟩

lemma afterValidation_total (cfg : ChatConfig) (o : Oracle) (st : Store)
    (key : String) (session : ConversationSession) (q : String)
    (hcm : cfg.conversation_mode = true)
    (hev : o.evalRoutingOutcome ≠ CallOutcome.raise)
    (hai : o.answerInquiryResp ≠ none) :
    ∃ r, afterValidation cfg o st key session q = Except.ok r := by
  simp only [afterValidation]
  split
  · cases hx : o.answerInquiryResp with
    | none => exact absurd hx hai
    | some a => exact ⟨_, rfl⟩
  · exact conversationTurn_total _ _ _ _ _ hev

/-- Claim C5 (amended): in conversation mode, for any combination of
capability outcomes in which the routing-evaluation LLM call does not raise
(and the inquiry-answering call, which the claim does not list, does not
raise either), the turn returns a normal discriminated result; unparsable
output of every listed capability and raised errors of validation,
clarification generation, confirmation generation and the
affirmative-intent check are all recovered with deterministic local
fallbacks.  A raised routing-evaluation call, by contrast, propagates
(see the counterexample). -/
theorem chat_fallback_total
    (cfg : ChatConfig) (o : Oracle) (st0 : Store) (q : String)
    (sid : Option String)
    (hcm : cfg.conversation_mode = true)
    (hev : o.evalRoutingOutcome ≠ CallOutcome.raise)
    (hai : o.answerInquiryResp ≠ none) :
    ∃ r, chat cfg o st0 q sid = Except.ok r := by
  simp only [chat]
  split
  · split
    · exact ⟨_, rfl⟩
    · exact afterValidation_total _ _ _ _ _ _ hcm hev hai
  · exact afterValidation_total _ _ _ _ _ _ hcm hev hai

/-- Oracle in which every capability call fails as badly as it can without
the routing evaluation itself raising. -/
def oAllBroken : Oracle :=
  { validateOutcome := CallOutcome.raise
    inquiryResp := none
    answerInquiryResp := some "unused"
    evalRoutingOutcome := CallOutcome.unparsable
    affirmResp := none
    confirmGenOutcome := CallOutcome.raise
    clarifyResp := none
    routeMsgResp := none
    catalog := []
    enrichedEmpty := true
    routeAgentOutcome := CallOutcome.raise }

/-- Witness for C5 (amended): with every recoverable capability failing,
the turn still returns a normal result. -/
theorem chat_fallback_total_witness :
    ∃ r, chat defaultConfig oAllBroken emptyStore "hello there" (some "s7") =
      Except.ok r :=
  chat_fallback_total defaultConfig oAllBroken emptyStore "hello there"
    (some "s7") rfl (by decide) (by decide)

/-- Claim C6: after a conversational turn that returns a result of type
"routing" (successful finalization), the session id is absent from the
store, and a subsequent get_or_create_session with the same id yields a
brand-new session with clarifications_asked = 0 and empty history. -/
theorem chat_finalize_deletes_session
    (cfg : ChatConfig) (o : Oracle) (st0 : Store) (q : String)
    (sid : Option String) (r : TurnResult)
    (hcm : cfg.conversation_mode = true)
    (h : chat cfg o st0 q sid = Except.ok r)
    (hr : rtype r.resp = "routing")
    (hid : (get_or_create_session st0 (effectiveKey sid)).1.session_id = effectiveKey sid) :
    storeGet r.store (effectiveKey sid) = none ∧
    (get_or_create_session r.store (effectiveKey sid)).1.clarifications_asked = 0 ∧
    (get_or_create_session r.store (effectiveKey sid)).1.messages = [] := by
  rcases chat_ok_inv h with ⟨hv, hen, hskip, hre⟩ | hAv
  · rw [hre] at hr; simp only [rtype] at hr; exact absurd hr (by decide)
  rcases afterValidation_ok_inv hAv with ⟨ans, hinq, hans, hre⟩ | ⟨_, hinq, hconv⟩ | ⟨hcm2, _, _⟩
  · rw [hre] at hr; simp only [rtype] at hr; exact absurd hr (by decide)
  swap
  · rw [hcm] at hcm2; exact absurd hcm2 (by decide)
  rcases conversationTurn_ok_inv hconv with ⟨rd, heval, hcase⟩
  rcases hcase with ⟨_, _, hb⟩ | ⟨_, _, _, hb⟩ | ⟨_, _, _, hb⟩ | ⟨_, hb⟩
  · obtain ⟨m, sid2, sum, tgt, hshape⟩ := (conv_confirm_prompt_inv hb).1
    rw [hshape] at hr; simp only [rtype] at hr; exact absurd hr (by decide)
  · obtain ⟨m, sid2, ags, hshape⟩ := (conv_param_clarification_inv hb).1
    rw [hshape] at hr; simp only [rtype] at hr; exact absurd hr (by decide)
  · obtain ⟨_, _, _, _, _, _, _, hsid, _, hstore⟩ := conv_finalize_inv hb
    have hsid2 : r.finalSession.session_id = effectiveKey sid := by
      rw [hsid]; simp [hid]
    have hgone : storeGet r.store (effectiveKey sid) = none := by
      rw [hstore, ← hsid2]
      simp [delete_session]
    refine ⟨hgone, ?_, ?_⟩
    · rw [get_or_create_session_of_none _ _ hgone]; rfl
    · rw [get_or_create_session_of_none _ _ hgone]; rfl
  · obtain ⟨m, sid2, ags, hshape⟩ := (conv_no_route_inv hb).1
    rw [hshape] at hr; simp only [rtype] at hr; exact absurd hr (by decide)

/-- Witness for C6: the concrete finalization run; afterwards the store has
no "s1" entry and a fresh lookup starts from zero. -/
theorem chat_finalize_deletes_session_witness :
    storeGet (TurnResult.store ((chat defaultConfig oBase stAwait "yes" (some "s1")).toOption.getD
      { resp := ChatResponse.agent_inquiry "", finalSession := newSession "x", store := emptyStore }))
      (effectiveKey (some "s1")) = none ∧
    (get_or_create_session (TurnResult.store ((chat defaultConfig oBase stAwait "yes" (some "s1")).toOption.getD
      { resp := ChatResponse.agent_inquiry "", finalSession := newSession "x", store := emptyStore }))
      (effectiveKey (some "s1"))).1.clarifications_asked = 0 ∧
    (get_or_create_session (TurnResult.store ((chat defaultConfig oBase stAwait "yes" (some "s1")).toOption.getD
      { resp := ChatResponse.agent_inquiry "", finalSession := newSession "x", store := emptyStore }))
      (effectiveKey (some "s1"))).1.messages = [] :=
  chat_finalize_deletes_session defaultConfig oBase stAwait "yes" (some "s1")
    _ rfl rfl rfl rfl

/-- Counterexample for C7: on the affirmative-with-incomplete-parameters
transition, awaiting_confirmation goes from true to false but the pending
route is NOT cleared: pending_routing_agent/subagent keep their values. -/
theorem chat_stale_pending_route :
    ∃ r, chat defaultConfig oNoParams stAwait5 "yes please" (some "s4") = Except.ok r ∧
      sessAwait5.awaiting_confirmation = true ∧
      r.finalSession.awaiting_confirmation = false ∧
      r.finalSession.pending_routing_agent = some "Email Agent" ∧
      r.finalSession.pending_routing_subagent = some "Gmail" :=
  ⟨_, rfl, rfl, rfl, rfl, rfl⟩

/-- Claim C7 (amended): on the affirmative-with-complete-parameters
transition (result of type "routing") pending_routing_agent and
pending_routing_subagent are cleared to null together with
awaiting_confirmation; on the affirmative-with-incomplete-parameters
transition (the clarification result that carries no clarification_count)
awaiting_confirmation is cleared but both pending fields keep their
previous values. -/
theorem chat_pending_clearing
    (cfg : ChatConfig) (o : Oracle) (st0 : Store) (q : String)
    (sid : Option String) (r : TurnResult)
    (h : chat cfg o st0 q sid = Except.ok r) :
    (∀ p m, r.resp = ChatResponse.routing p m →
      r.finalSession.awaiting_confirmation = false ∧
      r.finalSession.pending_routing_agent = none ∧
      r.finalSession.pending_routing_subagent = none) ∧
    (∀ m sid2 ags, r.resp = ChatResponse.clarification m sid2 none ags →
      r.finalSession.awaiting_confirmation = false ∧
      r.finalSession.pending_routing_agent =
        (get_or_create_session st0 (effectiveKey sid)).1.pending_routing_agent ∧
      r.finalSession.pending_routing_subagent =
        (get_or_create_session st0 (effectiveKey sid)).1.pending_routing_subagent) := by
  rcases chat_ok_inv h with ⟨hv, hen, hskip, hre⟩ | hAv
  · rw [hre]
    exact ⟨fun p m hx => by simp at hx, fun m sid2 ags hx => by simp at hx⟩
  rcases afterValidation_ok_inv hAv with ⟨ans, hinq, hans, hre⟩ | ⟨_, hinq, hconv⟩ | ⟨_, _, p2, hp, hre⟩
  · rw [hre]
    exact ⟨fun p m hx => by simp at hx, fun m sid2 ags hx => by simp at hx⟩
  swap
  · rw [hre]
    exact ⟨fun p m hx => by simp at hx, fun m sid2 ags hx => by simp at hx⟩
  rcases conversationTurn_ok_inv hconv with ⟨rd, heval, hcase⟩
  rcases hcase with ⟨_, _, hb⟩ | ⟨_, _, _, hb⟩ | ⟨_, _, _, hb⟩ | ⟨_, hb⟩
  · obtain ⟨⟨m, sid2, sum, tgt, hshape⟩, _⟩ := conv_confirm_prompt_inv hb
    refine ⟨fun p m2 hx => ?_, fun m2 sid3 ags hx => ?_⟩ <;>
      (rw [hshape] at hx; simp at hx)
  · obtain ⟨⟨m, sid2, ags, hshape⟩, _, hawait, hpa, hps, _⟩ := conv_param_clarification_inv hb
    refine ⟨fun p m2 hx => ?_, fun m2 sid3 ags2 hx => ?_⟩
    · rw [hshape] at hx; simp at hx
    · refine ⟨hawait, ?_, ?_⟩
      · rw [hpa]; simp
      · rw [hps]; simp
  · obtain ⟨hshape, _, hawait, hpa, hps, _⟩ := conv_finalize_inv hb
    refine ⟨fun p m2 hx => ⟨hawait, hpa, hps⟩, fun m2 sid3 ags hx => ?_⟩
    rw [hshape] at hx; simp at hx
  · obtain ⟨⟨m, sid2, ags, hshape⟩, _, hawait, hpa, hps, _⟩ := conv_no_route_inv hb
    refine ⟨fun p m2 hx => ?_, fun m2 sid3 ags2 hx => ?_⟩
    · rw [hshape] at hx; simp at hx
    · rw [hshape] at hx
      simp only [ChatResponse.clarification.injEq] at hx
      exact absurd hx.2.2.1.symm (by simp)

/-- Witness for C7 (amended): the stale-pending run applied to the amended
theorem, with the clarification-without-count conclusion instantiated at
the concrete response the run produces. -/
theorem chat_pending_clearing_witness :
    (TurnResult.finalSession ((chat defaultConfig oNoParams stAwait5 "sure" (some "s4")).toOption.getD
      { resp := ChatResponse.agent_inquiry "", finalSession := newSession "x", store := emptyStore })).awaiting_confirmation = false ∧
    (TurnResult.finalSession ((chat defaultConfig oNoParams stAwait5 "sure" (some "s4")).toOption.getD
      { resp := ChatResponse.agent_inquiry "", finalSession := newSession "x", store := emptyStore })).pending_routing_agent =
      (get_or_create_session stAwait5 (effectiveKey (some "s4"))).1.pending_routing_agent ∧
    (TurnResult.finalSession ((chat defaultConfig oNoParams stAwait5 "sure" (some "s4")).toOption.getD
      { resp := ChatResponse.agent_inquiry "", finalSession := newSession "x", store := emptyStore })).pending_routing_subagent =
      (get_or_create_session stAwait5 (effectiveKey (some "s4"))).1.pending_routing_subagent :=
  (chat_pending_clearing defaultConfig oNoParams stAwait5 "sure" (some "s4") _ rfl).2
    "Which agent should handle this?" "s4" [some "Email Agent"] rfl

/-- Claim C8: on a fresh conversation (empty history, not awaiting
confirmation) with validation enabled, an is_valid = false verdict makes
the turn return an invalid_query result carrying that validation's
confidence and suggested_action, with the session untouched; moreover the
turn's outcome depends only on the validation outcome - no other
capability (inquiry, routing evaluation, clarification, confirmation,
finalization) influences it, so the routing pipeline is never invoked. -/
theorem chat_invalid_query_short_circuit
    (cfg : ChatConfig) (o : Oracle) (st0 : Store) (q : String)
    (sid : Option String)
    (hen : cfg.query_validation_enabled = true)
    (hmsg : (get_or_create_session st0 (effectiveKey sid)).1.messages = [])
    (hawait : (get_or_create_session st0 (effectiveKey sid)).1.awaiting_confirmation = false)
    (hinv : (validate_query q o.validateOutcome).is_valid = false) :
    chat cfg o st0 q sid = Except.ok
      { resp := ChatResponse.invalid_query
          (format_rejection_message (validate_query q o.validateOutcome))
          (validate_query q o.validateOutcome).confidence
          (validate_query q o.validateOutcome).suggested_action
        finalSession := (get_or_create_session st0 (effectiveKey sid)).1
        store := (get_or_create_session st0 (effectiveKey sid)).2 } ∧
    (∀ o2 : Oracle, o2.validateOutcome = o.validateOutcome →
      chat cfg o2 st0 q sid = chat cfg o st0 q sid) := by
  have hrun : ∀ o3 : Oracle, o3.validateOutcome = o.validateOutcome →
      chat cfg o3 st0 q sid = Except.ok
        { resp := ChatResponse.invalid_query
            (format_rejection_message (validate_query q o.validateOutcome))
            (validate_query q o.validateOutcome).confidence
            (validate_query q o.validateOutcome).suggested_action
          finalSession := (get_or_create_session st0 (effectiveKey sid)).1
          store := (get_or_create_session st0 (effectiveKey sid)).2 } := by
    intro o3 ho3
    simp only [chat, hen, hawait, hmsg, ho3, hinv, List.isEmpty_nil, Bool.not_true,
      Bool.and_false, Bool.false_or, Bool.not_false, Bool.and_true, if_true,
      Bool.false_eq_true, if_false]
  refine ⟨hrun o rfl, fun o2 ho2 => ?_⟩
  rw [hrun o2 ho2, hrun o rfl]

/-- A parsed validation verdict that rejects the query. -/
def vBadFix : ValidationResult :=
  { is_valid := false, confidence := mkRat 15 100
    reason := "Query appears to be random text without clear meaning or intent"
    suggested_action := "reject" }

/-- Oracle whose validation parses to an invalid verdict. -/
def oInvalidFix : Oracle := { oBase with validateOutcome := CallOutcome.parsed vBadFix }

/-- Witness for C8: a fresh-session run rejected by validation. -/
theorem chat_invalid_query_short_circuit_witness :
    chat defaultConfig oInvalidFix emptyStore "zz top zz" (some "s8") = Except.ok
      { resp := ChatResponse.invalid_query
          (format_rejection_message (validate_query "zz top zz" oInvalidFix.validateOutcome))
          (validate_query "zz top zz" oInvalidFix.validateOutcome).confidence
          (validate_query "zz top zz" oInvalidFix.validateOutcome).suggested_action
        finalSession := (get_or_create_session emptyStore (effectiveKey (some "s8"))).1
        store := (get_or_create_session emptyStore (effectiveKey (some "s8"))).2 } :=
  (chat_invalid_query_short_circuit defaultConfig oInvalidFix emptyStore
    "zz top zz" (some "s8") rfl rfl rfl rfl).1

/-- Claim C9: when the inquiry classifier judges the query an agent
inquiry (and the answering call succeeds and validation does not reject
first), the handler returns an agent_inquiry result and the session
object is exactly the one fetched at the start of the turn: no message
appended, no counter incremented, no confirmation or parameter field
modified. -/
theorem chat_agent_inquiry_frame
    (cfg : ChatConfig) (o : Oracle) (st0 : Store) (q : String)
    (sid : Option String) (ans : String)
    (hinq : is_agent_inquiry o.inquiryResp = true)
    (hans : o.answerInquiryResp = some ans)
    (hpass : ((cfg.query_validation_enabled &&
        !((get_or_create_session st0 (effectiveKey sid)).1.awaiting_confirmation ||
          (cfg.conversation_mode && !(get_or_create_session st0 (effectiveKey sid)).1.messages.isEmpty))) &&
        !(validate_query q o.validateOutcome).is_valid) = false) :
    chat cfg o st0 q sid = Except.ok
      { resp := ChatResponse.agent_inquiry ans
        finalSession := (get_or_create_session st0 (effectiveKey sid)).1
        store := (get_or_create_session st0 (effectiveKey sid)).2 } := by
  have hAfter : afterValidation cfg o (get_or_create_session st0 (effectiveKey sid)).2
      (effectiveKey sid) (get_or_create_session st0 (effectiveKey sid)).1 q = Except.ok
        { resp := ChatResponse.agent_inquiry ans
          finalSession := (get_or_create_session st0 (effectiveKey sid)).1
          store := (get_or_create_session st0 (effectiveKey sid)).2 } := by
    simp only [afterValidation, hinq, hans, answer_agent_inquiry, if_true]
  by_cases hc : (cfg.query_validation_enabled &&
      !((get_or_create_session st0 (effectiveKey sid)).1.awaiting_confirmation ||
        (cfg.conversation_mode && !(get_or_create_session st0 (effectiveKey sid)).1.messages.isEmpty))) = true
  · have hval : (validate_query q o.validateOutcome).is_valid = true := by
      rw [hc] at hpass
      revert hpass
      cases (validate_query q o.validateOutcome).is_valid <;> simp
    simp only [chat, hc, hval, if_true, Bool.not_true, Bool.false_eq_true, if_false]
    exact hAfter
  · have hc2 : (cfg.query_validation_enabled &&
        !((get_or_create_session st0 (effectiveKey sid)).1.awaiting_confirmation ||
          (cfg.conversation_mode && !(get_or_create_session st0 (effectiveKey sid)).1.messages.isEmpty))) = false := by
      revert hc
      cases (cfg.query_validation_enabled &&
        !((get_or_create_session st0 (effectiveKey sid)).1.awaiting_confirmation ||
          (cfg.conversation_mode && !(get_or_create_session st0 (effectiveKey sid)).1.messages.isEmpty))) <;> simp
    simp only [chat, hc2, Bool.false_eq_true, if_false]
    exact hAfter

/-- Oracle whose inquiry classifier answers yes. -/
def oInquiryFix : Oracle := { oBase with inquiryResp := some "Yes" }

/-- Witness for C9: an inquiry turn on a fresh session. -/
theorem chat_agent_inquiry_frame_witness :
    chat defaultConfig oInquiryFix emptyStore "what agents do you have" (some "s9") = Except.ok
      { resp := ChatResponse.agent_inquiry "The Email Agent sends emails."
        finalSession := (get_or_create_session emptyStore (effectiveKey (some "s9"))).1
        store := (get_or_create_session emptyStore (effectiveKey (some "s9"))).2 } :=
  chat_agent_inquiry_frame defaultConfig oInquiryFix emptyStore
    "what agents do you have" (some "s9") "The Email Agent sends emails."
    rfl rfl rfl

/-- Claim C10 (implicit): a chat call without a session id - omitted
(None) or the empty string - is keyed under the single fixed session key
"default_session", so all such callers operate on the very same shared
session: the whole turn behaves exactly as a call with session id
"default_session". -/
theorem chat_default_session_key :
    effectiveKey none = "default_session" ∧
    effectiveKey (some "") = "default_session" ∧
    ∀ (cfg : ChatConfig) (o : Oracle) (st : Store) (q : String),
      chat cfg o st q none = chat cfg o st q (some "default_session") ∧
      chat cfg o st q (some "") = chat cfg o st q (some "default_session") :=
  ⟨rfl, rfl, fun _ _ _ _ => ⟨rfl, rfl⟩⟩
